import Mathlib

/-!
Verification of `invenio_rdm_records/services/github/release.py`
(class `RDMGithubRelease`).

The module is an orchestration layer: almost every line is a call to an
external collaborator (record service, file service, database session,
unit of work).  We embed it as a deterministic trace generator: an
`Env` fixes the behaviour of every collaborator (including which call,
if any, raises), `publish` produces the exact sequence of observable
events the Python method performs under that environment, and a small
semantics (`applyEv` / `runFrom`) replays those events against a
database-state model (session values, durable values, unit-of-work
pending set) mirroring SQLAlchemy session / UnitOfWork behaviour.
-/

namespace RDMGithub

/-- Release lifecycle status (`invenio_github.models.ReleaseStatus`). -/
inductive RStatus
  | received
  | processing
  | published
  | failed
deriving DecidableEq

/-- Python dict embedded as an association list (unique keys in practice;
the lookup/update semantics below replace the first occurrence, which
coincides with dict semantics on duplicate-free lists and is total). -/
abbrev Dict := List (String × String)

/-- Lookup of a key in a dict: first binding wins (`d[k]`/`d.get(k)`). -/
def dlookup : Dict → String → Option String
  | [], _ => none
  | kv :: rest, k => if kv.1 = k then some kv.2 else dlookup rest k

/-- `d[k] = v`: replace the binding of `k` if present, else append it. -/
def dictSet : Dict → String → String → Dict
  | [], k, v => [(k, v)]
  | kv :: rest, k, v => if kv.1 = k then (k, v) :: rest else kv :: dictSet rest k v

/-- `base.update(upd)`: set every binding of `upd` into `base`, in order. -/
def dictUpdate (base upd : Dict) : Dict :=
  upd.foldl (fun d kv => dictSet d kv.1 kv.2) base

/-- `RDMGithubRelease.metadata`: `output = metadata.default_metadata;
output.update(metadata.citation_metadata); return output`. -/
def releaseMetadata (defaultMetadata citationMetadata : Dict) : Dict :=
  dictUpdate defaultMetadata citationMetadata

/-! ## resolve_record -/

/-- Errors a record-service `read` can raise.  `deleted` stands for
`RecordDeletedException`; `other e` is any other service error. -/
inductive ReadErr
  | deleted
  | other (e : Nat)
deriving DecidableEq

/-- Collaborator behaviour needed by `resolve_record`: the release's
stored linkage (`release_object.record_id`, a record UUID or `None`),
the `retrieve_recid_by_uuid` lookup, and the outcome of
`current_rdm_records_service.read` per pid. -/
structure ResolveEnv where
  record_id : Option Nat
  recidByUuid : Nat → Nat
  readByPid : Nat → Except ReadErr Nat

/-- `RDMGithubRelease.resolve_record`, returning the list of pids the
record service was asked to `read` (the calls made) together with the
result: `Except` models a propagated exception, the inner `Option` the
Python `None`. -/
def resolve_record (env : ResolveEnv) : List Nat × Except ReadErr (Option Nat) :=
  match env.record_id with
  | none => ([], Except.ok none)
  | some uuid =>
    let pid := env.recidByUuid uuid
    match env.readByPid pid with
    | Except.ok r => ([pid], Except.ok (some r))
    | Except.error ReadErr.deleted => ([pid], Except.ok none)
    | Except.error (ReadErr.other e) => ([pid], Except.error (ReadErr.other e))

/-! ## record_url and badges -/

/-- Python string truthiness. -/
def strTruthy (s : String) : Bool := s ≠ ""

/-- Truthiness of `links.get("doi")` (absent or empty string is falsy). -/
def optTruthy : Option String → Bool
  | none => false
  | some s => strTruthy s

/-- `RDMGithubRelease.record_url`: `doi_url or html_url` where
`html_url = links["self_html"]` and `doi_url = links.get("doi")`. -/
def record_url (selfHtml : String) (doi : Option String) : String :=
  match doi with
  | some d => if d = "" then selfHtml else d
  | none => selfHtml

/-- The spec's reading of `record_url` ("prefer a DOI-style persistent
link if a configured external identifier system is enabled and the
record carries one; otherwise fall back to the record's own
human-facing URL"), written from the spec's words for comparison. -/
def recordUrlSpec (dataciteEnabled : Bool) (selfHtml : String) (doi : Option String) : String :=
  if dataciteEnabled && optTruthy doi then (doi.getD "") else selfHtml

/-- `RDMGithubRelease.badge_title`: `"DOI"` when `DATACITE_ENABLED`,
implicitly `None` otherwise. -/
def badge_title (dataciteEnabled : Bool) : Option String :=
  if dataciteEnabled then some "DOI" else none

/-- `RDMGithubRelease.badge_value`:
`record.data.get("pids", \x7b\x7d).get("doi", \x7b\x7d).get("identifier")` when
`DATACITE_ENABLED`, implicitly `None` otherwise.  `pidsDoiIdentifier`
is that nested lookup's value on the record. -/
def badge_value (dataciteEnabled : Bool) (pidsDoiIdentifier : Option String) : Option String :=
  if dataciteEnabled then pidsDoiIdentifier else none

/-! ## The publish workflow

`RDMGithubRelease.publish` / `process_release`, embedded as a trace
generator.  Each external collaborator call made inside the unit of
work is named by a `Call`; an `Env` says which calls raise (a raising
call performs no mutation).  Observable effects are `Ev` events; the
SQLAlchemy session / UnitOfWork semantics of the events is `applyEv`.
-/

abbrev Err := Nat

/-- One collaborator call inside the `try` body of `publish`, in source
order: `self.metadata` (building `data`), `latest_release` +
`retrieve_recid_by_uuid` (versioning branch lookups), `create` /
`new_version`, `test_zipball`, `init_files`, `fetch_zipball_file`,
`set_file_content`, `update_draft`, `commit_file`, `publish`,
`uow.commit()`. -/
inductive Call
  | metadata
  | latest
  | create
  | newVersion
  | testZip
  | initFiles
  | fetchZip
  | setContent
  | updateDraft
  | commitFile
  | publishRec
  | uowCommit
deriving DecidableEq

/-- The `data` dict built in `publish`. -/
structure Data where
  metadata : Dict
  accessRecord : String
  accessFiles : String
  filesEnabled : Bool
deriving DecidableEq

/-- A mutating record-service / file-service operation enrolled in the
unit of work (every such call in the source passes `uow=uow`). -/
inductive Op
  | createDraft (data : Data)
  | newVersion (pid : Nat)
  | updateDraft (draftId : Nat) (data : Data)
  | initFiles (draftId : Nat) (key : String)
  | setFileContent (draftId : Nat) (key : String)
  | commitFile (draftId : Nat) (key : String)
  | publishDraft (draftId : Nat)
deriving DecidableEq

/-- Observable events of one `publish` run. -/
inductive Ev
  | setStatus (s : RStatus)
  | setRecordId (uuid : Nat)
  | dbCommit
  | svcCall (op : Op)
  | testZipball
  | fetchZipball
  | uowCommit
  | uowRollback
deriving DecidableEq

/-- Collaborator behaviour for one `publish` run. -/
structure Env where
  /-- `self.is_first_release()` -/
  isFirst : Bool
  /-- which collaborator calls raise, and with which error -/
  fails : Call → Option Err
  /-- `RDMReleaseMetadata(self).default_metadata` -/
  defaultMetadata : Dict
  /-- `RDMReleaseMetadata(self).citation_metadata` -/
  citationMetadata : Dict
  /-- `self.release_file_name` -/
  releaseFileName : String
  /-- `self.repository_object.latest_release(ReleaseStatus.PUBLISHED).record_id` -/
  latestReleaseRecordId : Nat
  /-- `retrieve_recid_by_uuid(...).pid_value` -/
  recidByUuid : Nat → Nat
  /-- id of the draft returned by `create` / `new_version` -/
  draftId : Nat
  /-- `record._record.model.id` of the published record -/
  publishedRecordUuid : Nat

/-- The merged metadata + default access policy assembled into `data`. -/
def publishData (env : Env) : Data :=
  { metadata := releaseMetadata env.defaultMetadata env.citationMetadata
    accessRecord := "public"
    accessFiles := "public"
    filesEnabled := true }

/-- One step of the embedded `publish` body: an unconditional effect, or
a collaborator call which on success emits the given events and on
failure raises. -/
inductive PStep
  | emit (e : Ev)
  | call (c : Call) (evs : List Ev)

/-- Events appended when a call raises inside the unit of work: the
`with UnitOfWork` block rolls the session back, then the `except`
clause runs `self.release_failed()` and `db.session.commit()`. -/
def failTail : List Ev := [Ev.uowRollback, Ev.setStatus RStatus.failed, Ev.dbCommit]

/-- The raised error of a run, if any: the first failing call wins. -/
def execErr (env : Env) : List PStep → Option Err
  | [] => none
  | PStep.emit _ :: rest => execErr env rest
  | PStep.call c _ :: rest =>
    match env.fails c with
    | some e => some e
    | none => execErr env rest

/-- The event trace of a run (including the failure handling when a
call raises). -/
def execTrace (env : Env) : List PStep → List Ev
  | [] => []
  | PStep.emit e :: rest => e :: execTrace env rest
  | PStep.call c evs :: rest =>
    match env.fails c with
    | some _ => failTail
    | none => evs ++ execTrace env rest

/-- `_upload_files_to_draft(draft, draft_file_service, uow)`:
`test_zipball()`, then `init_files(..., uow=uow)`, then
`fetch_zipball_file()` and `set_file_content(..., uow=uow)`. -/
def uploadSteps (env : Env) (draftId : Nat) : List PStep :=
  [ PStep.call Call.testZip [Ev.testZipball],
    PStep.call Call.initFiles [Ev.svcCall (Op.initFiles draftId env.releaseFileName)],
    PStep.call Call.fetchZip [Ev.fetchZipball],
    PStep.call Call.setContent [Ev.svcCall (Op.setFileContent draftId env.releaseFileName)] ]

/-- The body of `RDMGithubRelease.publish`, step by step:
`self.release_processing(); db.session.commit()`; then inside
`with UnitOfWork(db.session) as uow:` build `data` (evaluates
`self.metadata`), branch on `self.is_first_release()`, upload files,
`commit_file`, `publish`, set `release_object.record_id`,
`self.release_published()`, `uow.commit()`. -/
def publishProg (env : Env) : List PStep :=
  [PStep.emit (Ev.setStatus RStatus.processing), PStep.emit Ev.dbCommit,
   PStep.call Call.metadata []]
  ++ (if env.isFirst then
        PStep.call Call.create [Ev.svcCall (Op.createDraft (publishData env))]
          :: uploadSteps env env.draftId
      else
        [PStep.call Call.latest [],
         PStep.call Call.newVersion
           [Ev.svcCall (Op.newVersion (env.recidByUuid env.latestReleaseRecordId))]]
        ++ uploadSteps env env.draftId
        ++ [PStep.call Call.updateDraft
             [Ev.svcCall (Op.updateDraft env.draftId (publishData env))]])
  ++ [ PStep.call Call.commitFile
         [Ev.svcCall (Op.commitFile env.draftId env.releaseFileName)],
       PStep.call Call.publishRec [Ev.svcCall (Op.publishDraft env.draftId)],
       PStep.emit (Ev.setRecordId env.publishedRecordUuid),
       PStep.emit (Ev.setStatus RStatus.published),
       PStep.call Call.uowCommit [Ev.uowCommit] ]

/-- `publish`: its event trace under `env`. -/
def publishTrace (env : Env) : List Ev := execTrace env (publishProg env)

/-- `publish`: the exception it raises under `env`, if any. -/
def publishErr (env : Env) : Option Err := execErr env (publishProg env)

/-- `process_release`: calls `publish`, logs on failure, and re-raises
the same exception object (`raise ex`). -/
def process_release (env : Env) : List Ev × Option Err :=
  (publishTrace env, publishErr env)

/-! ### Database-state semantics of the events -/

/-- Database state: in-session values vs durably committed values of
the release's `status` and `record_id`, plus the unit-of-work enrolled
operations (pending until a commit, discarded by a rollback). -/
structure St where
  sessStatus : RStatus
  durStatus : RStatus
  sessRecordId : Option Nat
  durRecordId : Option Nat
  pendingOps : List Op
  committedOps : List Op
deriving DecidableEq

def St.init : St :=
  { sessStatus := RStatus.received
    durStatus := RStatus.received
    sessRecordId := none
    durRecordId := none
    pendingOps := []
    committedOps := [] }

/-- Effect of one event.  `dbCommit` and `uowCommit` both commit the
session (the unit of work wraps `db.session`), making session values
durable and flushing pending operations; `uowRollback` discards the
pending operations and resets session values to the durable ones. -/
def applyEv (s : St) : Ev → St
  | Ev.setStatus st => { s with sessStatus := st }
  | Ev.setRecordId u => { s with sessRecordId := some u }
  | Ev.dbCommit =>
    { s with durStatus := s.sessStatus, durRecordId := s.sessRecordId,
             committedOps := s.committedOps ++ s.pendingOps, pendingOps := [] }
  | Ev.svcCall op => { s with pendingOps := s.pendingOps ++ [op] }
  | Ev.testZipball => s
  | Ev.fetchZipball => s
  | Ev.uowCommit =>
    { s with durStatus := s.sessStatus, durRecordId := s.sessRecordId,
             committedOps := s.committedOps ++ s.pendingOps, pendingOps := [] }
  | Ev.uowRollback =>
    { s with sessStatus := s.durStatus, sessRecordId := s.durRecordId, pendingOps := [] }

/-- Replay a trace from a state. -/
def runFrom (s : St) (t : List Ev) : St := t.foldl applyEv s

/-- The database state after one `publish` run. -/
def finalState (env : Env) : St := runFrom St.init (publishTrace env)

/-- The mutating service operations requested during a trace, in order. -/
def svcOps : List Ev → List Op
  | [] => []
  | Ev.svcCall op :: rest => op :: svcOps rest
  | _ :: rest => svcOps rest

/-- Number of direct (non-unit-of-work) session commits in a trace. -/
def countDbCommit : List Ev → Nat
  | [] => 0
  | Ev.dbCommit :: rest => countDbCommit rest + 1
  | _ :: rest => countDbCommit rest

/-- `true` iff every `setStatus target` event in the trace is
immediately followed by an independent `dbCommit`. -/
def statusThenCommit (target : RStatus) : List Ev → Bool
  | [] => true
  | Ev.setStatus s :: rest =>
    (if s = target then
       match rest with
       | Ev.dbCommit :: _ => true
       | _ => false
     else true) && statusThenCommit target rest
  | _ :: rest => statusThenCommit target rest

/-- `true` iff no mutating service call at all precedes the
fetchability check (`test_zipball`) in the trace — the claim's reading
of "fail fast, before any Record Service writes occur". -/
def fetchCheckBeforeAnySvc : List Ev → Bool
  | [] => true
  | Ev.testZipball :: _ => true
  | Ev.svcCall _ :: _ => false
  | _ :: rest => fetchCheckBeforeAnySvc rest

/-- `true` iff no file-service operation precedes the fetchability
check in the trace. -/
def fetchCheckBeforeFileOps : List Ev → Bool
  | [] => true
  | Ev.testZipball :: _ => true
  | Ev.svcCall (Op.initFiles _ _) :: _ => false
  | Ev.svcCall (Op.setFileContent _ _) :: _ => false
  | Ev.svcCall (Op.commitFile _ _) :: _ => false
  | _ :: rest => fetchCheckBeforeFileOps rest

/-! ### The trace of a successful run -/

/-- Events emitted by a successful `_upload_files_to_draft`. -/
def uploadEvs (env : Env) : List Ev :=
  [ Ev.testZipball,
    Ev.svcCall (Op.initFiles env.draftId env.releaseFileName),
    Ev.fetchZipball,
    Ev.svcCall (Op.setFileContent env.draftId env.releaseFileName) ]

/-- Trace of a successful run, up to (excluding) the final `uow.commit()`. -/
def successPre (env : Env) : List Ev :=
  [Ev.setStatus RStatus.processing, Ev.dbCommit]
  ++ (if env.isFirst then
        Ev.svcCall (Op.createDraft (publishData env)) :: uploadEvs env
      else
        Ev.svcCall (Op.newVersion (env.recidByUuid env.latestReleaseRecordId))
          :: uploadEvs env
          ++ [Ev.svcCall (Op.updateDraft env.draftId (publishData env))])
  ++ [ Ev.svcCall (Op.commitFile env.draftId env.releaseFileName),
       Ev.svcCall (Op.publishDraft env.draftId),
       Ev.setRecordId env.publishedRecordUuid,
       Ev.setStatus RStatus.published ]

/-- Trace of a successful run. -/
def successTrace (env : Env) : List Ev := successPre env ++ [Ev.uowCommit]

/-! ### Concrete environments used as witnesses -/

/-- A first release of its repository; no collaborator fails. -/
def env0 : Env :=
  { isFirst := true
    fails := fun _ => none
    defaultMetadata := [("title", "repo v1.0")]
    citationMetadata := [("creators", "Doe")]
    releaseFileName := "repo-v1.0.zip"
    latestReleaseRecordId := 0
    recidByUuid := fun u => u + 100
    draftId := 1
    publishedRecordUuid := 42 }

/-- A subsequent release: the repository has a prior PUBLISHED release. -/
def envV : Env := { env0 with isFirst := false, latestReleaseRecordId := 7 }

/-- A first release whose asset fetchability check (`test_zipball`)
raises error 7. -/
def envF : Env := { env0 with fails := fun c => if c = Call.testZip then some 7 else none }

/-- A release linked to a record whose `read` raises
`RecordDeletedException`. -/
def resolveEnvDeleted : ResolveEnv :=
  { record_id := some 5
    recidByUuid := fun u => u + 100
    readByPid := fun _ => Except.error ReadErr.deleted }

/-- A release with no stored linkage. -/
def resolveEnvNoLink : ResolveEnv :=
  { record_id := none
    recidByUuid := fun u => u + 100
    readByPid := fun p => Except.ok p }

/-! ## Helper lemmas -/

lemma dlookup_dictSet (d : Dict) (k k' v : String) :
    dlookup (dictSet d k' v) k = if k' = k then some v else dlookup d k := by
  induction d with
  | nil => simp [dictSet, dlookup]
  | cons kv rest ih =>
    by_cases h1 : kv.1 = k'
    · by_cases h2 : k' = k <;> simp [dictSet, dlookup, h1, h2]
    · by_cases h2 : k' = k
      · subst h2
        simp [dictSet, dlookup, h1, ih]
      · simp [dictSet, dlookup, h1, ih, h2]

lemma dlookup_mem_keys {d : Dict} {k v : String} (h : dlookup d k = some v) :
    k ∈ d.map Prod.fst := by
  induction d with
  | nil => simp [dlookup] at h
  | cons kv rest ih =>
    by_cases h1 : kv.1 = k
    · simp [h1]
    · simp [dlookup, h1] at h
      simp [ih h]

lemma dlookup_dictUpdate (upd : Dict) (hnd : (upd.map Prod.fst).Nodup)
    (base : Dict) (k : String) :
    dlookup (dictUpdate base upd) k =
      match dlookup upd k with
      | some v => some v
      | none => dlookup base k := by
  induction upd generalizing base with
  | nil => simp [dictUpdate, dlookup]
  | cons kv rest ih =>
    simp only [List.map_cons, List.nodup_cons] at hnd
    show dlookup (dictUpdate (dictSet base kv.1 kv.2) rest) k = _
    rw [ih hnd.2]
    by_cases h : kv.1 = k
    · have hr : dlookup rest k = none := by
        cases hr : dlookup rest k with
        | none => rfl
        | some v => exact absurd (h ▸ dlookup_mem_keys hr) hnd.1
      simp [dlookup, h, hr, dlookup_dictSet]
    · cases hr : dlookup rest k <;> simp [dlookup, h, hr, dlookup_dictSet]

lemma publish_success_trace (env : Env) (h : publishErr env = none) :
    publishTrace env = successTrace env := by
  unfold publishErr publishProg uploadSteps at h
  unfold publishTrace publishProg uploadSteps successTrace successPre uploadEvs
  cases hf : env.isFirst <;>
    simp only [hf, Bool.false_eq_true, if_true, if_false, ite_true, ite_false,
      List.append_assoc, List.cons_append, List.nil_append, execErr] at h ⊢ <;>
  · repeat rw [execTrace]
    repeat' split at h
    all_goals simp_all [execTrace]

lemma publish_fail_state (env : Env) (e : Err) (h : publishErr env = some e) :
    (∃ c, env.fails c = some e) ∧ failTail <:+ publishTrace env ∧
      finalState env = { sessStatus := RStatus.failed, durStatus := RStatus.failed,
                         sessRecordId := none, durRecordId := none,
                         pendingOps := [], committedOps := [] } := by
  unfold publishErr publishProg uploadSteps at h
  unfold finalState publishTrace publishProg uploadSteps
  cases hf : env.isFirst <;>
    simp only [hf, Bool.false_eq_true, if_true, if_false, ite_true, ite_false,
      List.append_assoc, List.cons_append, List.nil_append, execErr] at h ⊢ <;>
  · repeat rw [execTrace]
    repeat' split at h
    all_goals try (injection h with h2; subst h2)
    all_goals first
      | exact absurd h (by simp)
      | (refine ⟨⟨_, by assumption⟩, ?_, ?_⟩ <;>
          simp_all [execTrace, runFrom, applyEv, St.init, failTail,
            List.suffix_cons_iff])

lemma runFrom_successPre (env : Env) :
    runFrom St.init (successPre env) =
      { sessStatus := RStatus.published, durStatus := RStatus.processing,
        sessRecordId := some env.publishedRecordUuid, durRecordId := none,
        pendingOps := svcOps (successPre env), committedOps := [] } := by
  cases hf : env.isFirst <;>
    simp [successPre, uploadEvs, runFrom, applyEv, St.init, svcOps, hf]

lemma runFrom_successTrace (env : Env) :
    runFrom St.init (successTrace env) =
      { sessStatus := RStatus.published, durStatus := RStatus.published,
        sessRecordId := some env.publishedRecordUuid,
        durRecordId := some env.publishedRecordUuid,
        pendingOps := [], committedOps := svcOps (successPre env) } := by
  cases hf : env.isFirst <;>
    simp [successTrace, successPre, uploadEvs, runFrom, applyEv, St.init, svcOps, hf]

lemma countDbCommit_successPre (env : Env) : countDbCommit (successPre env) = 1 := by
  cases hf : env.isFirst <;>
    simp [successPre, uploadEvs, countDbCommit, hf]

lemma svcOps_snoc_uowCommit (t : List Ev) :
    svcOps (t ++ [Ev.uowCommit]) = svcOps t := by
  induction t with
  | nil => rfl
  | cons e rest ih => cases e <;> simp [svcOps, ih]

lemma publishDraft_mem_successPre (env : Env) :
    Op.publishDraft env.draftId ∈ svcOps (successPre env) := by
  cases hf : env.isFirst <;>
    simp [successPre, uploadEvs, svcOps, hf]

lemma statusThenCommit_all (env : Env) :
    statusThenCommit RStatus.processing (publishTrace env) = true ∧
      statusThenCommit RStatus.failed (publishTrace env) = true := by
  unfold publishTrace publishProg uploadSteps
  cases hf : env.isFirst <;>
    simp only [hf, Bool.false_eq_true, if_true, if_false, ite_true, ite_false,
      List.append_assoc, List.cons_append, List.nil_append] <;>
  · repeat rw [execTrace]
    repeat' split
    all_goals simp [statusThenCommit, failTail]

lemma fetchCheckBeforeFileOps_all (env : Env) :
    fetchCheckBeforeFileOps (publishTrace env) = true := by
  unfold publishTrace publishProg uploadSteps
  cases hf : env.isFirst <;>
    simp only [hf, Bool.false_eq_true, if_true, if_false, ite_true, ite_false,
      List.append_assoc, List.cons_append, List.nil_append] <;>
  · repeat rw [execTrace]
    repeat' split
    all_goals simp [fetchCheckBeforeFileOps, failTail]

lemma statusThenCommit_published_success (env : Env) (h : publishErr env = none) :
    statusThenCommit RStatus.published (publishTrace env) = false := by
  rw [publish_success_trace env h]
  cases hf : env.isFirst <;>
    simp [successTrace, successPre, uploadEvs, statusThenCommit, hf]

/-! ## The claims -/

/-- Claim C1: if any exception is raised during a publish attempt, all
mutations enrolled in the unit of work are discarded (no operation is
committed, no linkage is durable, nothing stays pending), the release
is transitioned to FAILED and that transition is durably committed as
an independent write (the trace ends with the rollback, the FAILED
transition and a direct session commit), and the original exception is
re-raised unchanged — it is exactly the error of a failing
collaborator call, and `process_release` propagates the same error. -/
theorem publish_failure_discards_and_reraises (env : Env) (e : Err)
    (h : publishErr env = some e) :
    (finalState env).committedOps = [] ∧
    (finalState env).pendingOps = [] ∧
    (finalState env).durRecordId = none ∧
    (finalState env).durStatus = RStatus.failed ∧
    failTail <:+ publishTrace env ∧
    (∃ c, env.fails c = some e) ∧
    (process_release env).2 = some e := by
  obtain ⟨hc, hsuf, hst⟩ := publish_fail_state env e h
  refine ⟨?_, ?_, ?_, ?_, hsuf, hc, ?_⟩ <;> simp [hst, process_release, h]

theorem publish_failure_discards_and_reraises_witness :
    publishErr envF = some 7 ∧
    ((finalState envF).committedOps = [] ∧
     (finalState envF).pendingOps = [] ∧
     (finalState envF).durRecordId = none ∧
     (finalState envF).durStatus = RStatus.failed ∧
     failTail <:+ publishTrace envF ∧
     (∃ c, envF.fails c = some 7) ∧
     (process_release envF).2 = some 7) :=
  ⟨rfl, publish_failure_discards_and_reraises envF 7 rfl⟩

/-- Claim C2: on a successful publish attempt the trace is a prefix
followed by the single unit-of-work commit; just before that commit
nothing of the transactional phase is durable (no committed operation,
no linkage, durable status still PROCESSING) and the only direct
session commit in the prefix is the step-1 PROCESSING marker; the
unit-of-work commit then persists the publish request, the record
linkage and the PUBLISHED status together. -/
theorem publish_success_single_uow_commit (env : Env)
    (h : publishErr env = none) :
    publishTrace env = successPre env ++ [Ev.uowCommit] ∧
    countDbCommit (successPre env) = 1 ∧
    (runFrom St.init (successPre env)).durStatus = RStatus.processing ∧
    (runFrom St.init (successPre env)).durRecordId = none ∧
    (runFrom St.init (successPre env)).committedOps = [] ∧
    (finalState env).durStatus = RStatus.published ∧
    (finalState env).durRecordId = some env.publishedRecordUuid ∧
    (finalState env).committedOps = svcOps (publishTrace env) ∧
    Op.publishDraft env.draftId ∈ (finalState env).committedOps := by
  have ht := publish_success_trace env h
  have h1 := runFrom_successPre env
  have h2 := runFrom_successTrace env
  rw [successTrace] at ht h2
  refine ⟨ht, countDbCommit_successPre env, ?_, ?_, ?_, ?_, ?_, ?_, ?_⟩ <;>
    simp [finalState, ht, h1, h2, svcOps_snoc_uowCommit,
      publishDraft_mem_successPre]

theorem publish_success_single_uow_commit_witness :
    publishErr env0 = none ∧
    (publishTrace env0 = successPre env0 ++ [Ev.uowCommit] ∧
     countDbCommit (successPre env0) = 1 ∧
     (runFrom St.init (successPre env0)).durStatus = RStatus.processing ∧
     (runFrom St.init (successPre env0)).durRecordId = none ∧
     (runFrom St.init (successPre env0)).committedOps = [] ∧
     (finalState env0).durStatus = RStatus.published ∧
     (finalState env0).durRecordId = some env0.publishedRecordUuid ∧
     (finalState env0).committedOps = svcOps (publishTrace env0) ∧
     Op.publishDraft env0.draftId ∈ (finalState env0).committedOps) :=
  ⟨rfl, publish_success_single_uow_commit env0 rfl⟩

/-- Claim C3: on a successful attempt, a first release requests a fresh
draft with the default policy (access record=public, files=public,
files enabled) and the merged metadata, then uploads the file; a
subsequent release instead requests a new version of the persistent
identifier resolved from the latest PUBLISHED release's linked record
(no `createDraft`, hence no new lineage), uploads the file into that
new-version draft, and then performs an explicit metadata update with
the same metadata document. -/
theorem publish_branch_behavior (env : Env) (h : publishErr env = none) :
    (env.isFirst = true →
      svcOps (publishTrace env) =
        [ Op.createDraft (publishData env),
          Op.initFiles env.draftId env.releaseFileName,
          Op.setFileContent env.draftId env.releaseFileName,
          Op.commitFile env.draftId env.releaseFileName,
          Op.publishDraft env.draftId ]) ∧
    (env.isFirst = false →
      svcOps (publishTrace env) =
        [ Op.newVersion (env.recidByUuid env.latestReleaseRecordId),
          Op.initFiles env.draftId env.releaseFileName,
          Op.setFileContent env.draftId env.releaseFileName,
          Op.updateDraft env.draftId (publishData env),
          Op.commitFile env.draftId env.releaseFileName,
          Op.publishDraft env.draftId ]) ∧
    publishData env =
      { metadata := releaseMetadata env.defaultMetadata env.citationMetadata
        accessRecord := "public"
        accessFiles := "public"
        filesEnabled := true } := by
  rw [publish_success_trace env h]
  refine ⟨fun hf => ?_, fun hf => ?_, rfl⟩ <;>
    simp [successTrace, successPre, uploadEvs, svcOps, hf]

theorem publish_branch_behavior_witness :
    (publishErr env0 = none ∧ env0.isFirst = true ∧
      svcOps (publishTrace env0) =
        [ Op.createDraft (publishData env0),
          Op.initFiles env0.draftId env0.releaseFileName,
          Op.setFileContent env0.draftId env0.releaseFileName,
          Op.commitFile env0.draftId env0.releaseFileName,
          Op.publishDraft env0.draftId ]) ∧
    (publishErr envV = none ∧ envV.isFirst = false ∧
      svcOps (publishTrace envV) =
        [ Op.newVersion (envV.recidByUuid envV.latestReleaseRecordId),
          Op.initFiles envV.draftId envV.releaseFileName,
          Op.setFileContent envV.draftId envV.releaseFileName,
          Op.updateDraft envV.draftId (publishData envV),
          Op.commitFile envV.draftId envV.releaseFileName,
          Op.publishDraft envV.draftId ]) :=
  ⟨⟨rfl, rfl, (publish_branch_behavior env0 rfl).1 rfl⟩,
   ⟨rfl, rfl, (publish_branch_behavior envV rfl).2.1 rfl⟩⟩

/-- Claim C4 counterexample: in the successful run of `env0` the
PUBLISHED transition is not followed by an independent durable commit
— at the moment the session status becomes PUBLISHED, the durable
status is still PROCESSING, and the change only becomes durable at the
unit-of-work commit — refuting the claim that every status transition
(PROCESSING, PUBLISHED, FAILED) is durably committed immediately and
never deferred to the unit of work. -/
theorem published_transition_deferred_cex :
    publishErr env0 = none ∧
    statusThenCommit RStatus.published (publishTrace env0) = false ∧
    (runFrom St.init (successPre env0)).sessStatus = RStatus.published ∧
    (runFrom St.init (successPre env0)).durStatus = RStatus.processing :=
  ⟨rfl, by decide, by decide, by decide⟩

/-- Claim C4 as amended: the PROCESSING and FAILED transitions are each
durably committed immediately (the very next event in any trace is an
independent session commit); the PUBLISHED transition instead is part
of the unit of work — on a successful run it is not followed by an
independent commit and becomes durable only at the unit-of-work
commit. -/
theorem status_commit_discipline (env : Env) :
    statusThenCommit RStatus.processing (publishTrace env) = true ∧
    statusThenCommit RStatus.failed (publishTrace env) = true ∧
    (publishErr env = none →
      statusThenCommit RStatus.published (publishTrace env) = false ∧
      (runFrom St.init (successPre env)).durStatus = RStatus.processing ∧
      (finalState env).durStatus = RStatus.published) := by
  refine ⟨(statusThenCommit_all env).1, (statusThenCommit_all env).2,
    fun h => ⟨statusThenCommit_published_success env h, ?_, ?_⟩⟩
  · simp [runFrom_successPre]
  · simp [finalState, publish_success_trace env h, runFrom_successTrace]

theorem status_commit_discipline_witness :
    publishErr env0 = none ∧
    (statusThenCommit RStatus.published (publishTrace env0) = false ∧
     (runFrom St.init (successPre env0)).durStatus = RStatus.processing ∧
     (finalState env0).durStatus = RStatus.published) :=
  ⟨rfl, (status_commit_discipline env0).2.2 rfl⟩

/-- Claim C5 counterexample: in the run of `envF` the fetchability
check itself is what fails, yet a mutating Record Service call (the
draft creation) was already made before the check — `test_zipball` is
only reached after `create`/`new_version` — refuting the claim that
the check occurs before any mutating call to the Record Service or
File Transfer Service. -/
theorem fetch_check_after_record_write_cex :
    fetchCheckBeforeAnySvc (publishTrace envF) = false ∧
    publishErr envF = some 7 ∧
    Ev.svcCall (Op.createDraft (publishData envF)) ∈ publishTrace envF :=
  ⟨by decide, rfl, by decide⟩

/-- Claim C5 as amended: the fetchability check precedes every File
Transfer Service operation in every execution, but the draft-creating
Record Service call precedes the check; on a failure (a fetch failure
included) all enrolled mutations are discarded, so no service write
and no linkage is durably persisted. -/
theorem fetch_check_before_file_ops (env : Env) :
    fetchCheckBeforeFileOps (publishTrace env) = true ∧
    (∀ e, publishErr env = some e →
      (finalState env).committedOps = [] ∧ (finalState env).durRecordId = none) := by
  refine ⟨fetchCheckBeforeFileOps_all env, fun e h => ?_⟩
  obtain ⟨-, -, hst⟩ := publish_fail_state env e h
  simp [hst]

theorem fetch_check_before_file_ops_witness :
    publishErr envF = some 7 ∧
    ((finalState envF).committedOps = [] ∧ (finalState envF).durRecordId = none) :=
  ⟨rfl, (fetch_check_before_file_ops envF).2 7 rfl⟩

/-- Claim C6 counterexample: a record carrying the DOI link `"D"` while
the DataCite integration is disabled: the claim requires the
human-facing URL `"H"`, but `record_url` returns the DOI link — the
configuration flag is not consulted by the code. -/
theorem record_url_flag_not_consulted_cex :
    record_url "H" (some "D") ≠ recordUrlSpec false "H" (some "D") := by decide

/-- Claim C6 as amended: `record_url` returns the DOI link precisely
when the record's links carry a truthy (non-empty) `doi` entry, and
the record's own human-facing URL otherwise, regardless of the
DATACITE flag: on every input it coincides with the spec's
enabled-case reading. -/
theorem record_url_doi_preference (selfHtml : String) (doi : Option String) :
    record_url selfHtml doi = recordUrlSpec true selfHtml doi ∧
    (optTruthy doi = false → record_url selfHtml doi = selfHtml) := by
  constructor
  · cases doi with
    | none => simp [record_url, recordUrlSpec, optTruthy]
    | some d =>
      by_cases hd : d = "" <;>
        simp [record_url, recordUrlSpec, optTruthy, strTruthy, hd]
  · cases doi with
    | none => simp [record_url]
    | some d =>
      intro h
      simp only [optTruthy, strTruthy, decide_eq_false_iff_not, ne_eq,
        not_not] at h
      simp [record_url, h]

theorem record_url_doi_preference_witness :
    optTruthy (some "") = false ∧ record_url "H" (some "") = "H" :=
  ⟨rfl, (record_url_doi_preference "H" (some "")).2 rfl⟩

/-- Claim C7: when the stored linkage points at a record whose `read`
raises `RecordDeletedException`, `resolve_record` returns absent
(`ok none`) instead of propagating the deletion error. -/
theorem resolve_record_tombstone_absent (env : ResolveEnv) (uuid : Nat)
    (h1 : env.record_id = some uuid)
    (h2 : env.readByPid (env.recidByUuid uuid) = Except.error ReadErr.deleted) :
    (resolve_record env).2 = Except.ok none := by
  simp [resolve_record, h1, h2]

theorem resolve_record_tombstone_absent_witness :
    resolveEnvDeleted.record_id = some 5 ∧
    resolveEnvDeleted.readByPid (resolveEnvDeleted.recidByUuid 5) =
      Except.error ReadErr.deleted ∧
    (resolve_record resolveEnvDeleted).2 = Except.ok none :=
  ⟨rfl, rfl, resolve_record_tombstone_absent resolveEnvDeleted 5 rfl rfl⟩

/-- Claim C8: a release with no stored linkage resolves to absent and
performs no record-service read at all (the list of reads is empty). -/
theorem resolve_record_no_linkage (env : ResolveEnv)
    (h : env.record_id = none) :
    resolve_record env = ([], Except.ok none) := by
  simp [resolve_record, h]

theorem resolve_record_no_linkage_witness :
    resolveEnvNoLink.record_id = none ∧
    resolve_record resolveEnvNoLink = ([], Except.ok none) :=
  ⟨rfl, resolve_record_no_linkage resolveEnvNoLink rfl⟩

/-- Claim C9: the draft metadata document is the default metadata
updated with the citation metadata, and on any key the citation value
wins when present while the default value is kept otherwise
(last-write-wins merge with citation fields applied last). -/
theorem release_metadata_citation_wins (defaultMetadata citationMetadata : Dict)
    (hnd : (citationMetadata.map Prod.fst).Nodup) (k : String) :
    dlookup (releaseMetadata defaultMetadata citationMetadata) k =
      match dlookup citationMetadata k with
      | some v => some v
      | none => dlookup defaultMetadata k :=
  dlookup_dictUpdate citationMetadata hnd defaultMetadata k

theorem release_metadata_citation_wins_witness :
    ((([("title", "C")] : Dict).map Prod.fst).Nodup) ∧
    dlookup (releaseMetadata [("title", "T"), ("creators", "A")] [("title", "C")])
      "title" = some "C" ∧
    dlookup (releaseMetadata [("title", "T"), ("creators", "A")] [("title", "C")])
      "creators" = some "A" :=
  ⟨by decide,
   release_metadata_citation_wins [("title", "T"), ("creators", "A")]
     [("title", "C")] (by decide) "title",
   release_metadata_citation_wins [("title", "T"), ("creators", "A")]
     [("title", "C")] (by decide) "creators"⟩

/-- Claim C10: with the DataCite flag enabled `badge_title` is always
`"DOI"` while `badge_value` is absent whenever the record carries no
DOI identifier in its pids (title present with value absent is
possible); with the flag disabled both are absent. -/
theorem badge_title_value_flag :
    badge_title true = some "DOI" ∧
    badge_value true none = none ∧
    badge_title false = none ∧
    (∀ d, badge_value false d = none) ∧
    (∀ d, badge_value true (some d) = some d) :=
  ⟨rfl, rfl, rfl, fun _ => rfl, fun _ => rfl⟩

end RDMGithub
